import Mathlib

/-!
# Verification of the onblock investment backend (`backend/index.js`)

Shallow embedding of the single-file Express/Postgres backend. The durable
state is two tables, `dashboard` and `assets`, modelled as lists of rows.
DECIMAL columns and JavaScript numbers are modelled as `ℚ` (exact
arithmetic); row ids are `ℕ`. Request-body fields (`assetId`,
`tokensToBuy`) arrive as JSON values that may be absent, modelled as
`Option`; JavaScript truthiness of a number is "present and nonzero".

The `POST /invest` handler (lines 132-203 of `backend/index.js`) runs a
check-then-write sequence inside one transaction and maps every error
thrown in the `try` block — business rule or infrastructure — through the
single `catch` to a 400 response after `ROLLBACK`. Infrastructure failures
of individual store operations are modelled by an explicit fault oracle
`StoreFaults`; the fault-free handler instantiates it with `noFaults`.
-/

/-- A row of the `dashboard` table (`backend/index.js` lines 49-54):
`wallet_balance`, `total_investment`, `monthly_yield` are DECIMAL(15,2). -/
structure Dashboard where
  id : ℕ
  wallet_balance : ℚ
  total_investment : ℚ
  monthly_yield : ℚ
deriving DecidableEq, Repr

/-- A row of the `assets` table (`backend/index.js` lines 56-63):
`tokens_available` is an INTEGER column, so it is `ℤ` in the model. -/
structure Asset where
  id : ℕ
  name : String
  location : String
  apy : ℚ
  price_per_token : ℚ
  tokens_available : ℤ
deriving DecidableEq, Repr

/-- The durable store: the two tables, as ordered lists of rows. -/
structure St where
  dashboard : List Dashboard
  assets : List Asset
deriving DecidableEq, Repr

/-- JavaScript truthiness of a possibly-absent numeric JSON field:
`!x` is true exactly when the field is missing or equal to `0`. -/
def truthyQ : Option ℚ → Bool
  | none => false
  | some q => q != 0

/-- Truthiness of a possibly-absent id field. -/
def truthyNat : Option ℕ → Bool
  | none => false
  | some n => n != 0

/-- The input validation of the `/invest` handler (`backend/index.js`
line 136): the request is accepted iff
`!(!assetId || !tokensToBuy || tokensToBuy <= 0)`. -/
def validInvestInput (assetId : Option ℕ) (tokensToBuy : Option ℚ) : Bool :=
  truthyNat assetId && truthyQ tokensToBuy && decide (0 < tokensToBuy.getD 0)

/-- `SELECT * FROM assets WHERE id = $1` followed by taking `rows[0]`
(`backend/index.js` line 145): the first row whose id matches. -/
def findAsset (assets : List Asset) (aid : ℕ) : Option Asset :=
  match assets with
  | [] => none
  | a :: rest => if a.id == aid then some a else findAsset rest aid

/-- The `data` object of the success response (`backend/index.js`
lines 186-195). -/
structure InvestData where
  spent : ℚ
  remainingBalance : ℚ
  newTotalInvestment : ℚ
  newMonthlyYield : ℚ
deriving DecidableEq, Repr

/-- Outcome of one `/invest` request, as the HTTP layer reports it. -/
inductive InvestResult where
  /-- 400 `'Valid assetId and tokensToBuy are required'`, sent before the
  handler touches the pool (`backend/index.js` line 137). -/
  | validationError : InvestResult
  /-- 400 `{error: msg}` from the catch block after `ROLLBACK`
  (`backend/index.js` lines 197-199). -/
  | businessError (msg : String) : InvestResult
  /-- 200 success response (`backend/index.js` lines 186-195). -/
  | ok (d : InvestData) : InvestResult
deriving DecidableEq, Repr

/-- The HTTP status code each outcome is sent with. -/
def investStatus : InvestResult → ℕ
  | .ok _ => 200
  | _ => 400

/-- Fault oracle for the store operations performed inside the `try` block:
`some msg` means that operation throws an error with message `msg`. -/
structure StoreFaults where
  beginFault : Option String
  assetQueryFault : Option String
  dashQueryFault : Option String
  updateAssetFault : Option String
  updateDashFault : Option String
  commitFault : Option String
deriving DecidableEq, Repr

/-- The fault-free oracle: every store operation succeeds. -/
def noFaults : StoreFaults := ⟨none, none, none, none, none, none⟩

/-- The message PostgreSQL raises when the text rendering of a non-integral
parameter is bound against the INTEGER `tokens_available` column of the
UPDATE at `backend/index.js` line 167 (the untyped `$1` resolves to `int4`
from `tokens_available - $1`). The real text quotes the parameter's decimal
rendering, e.g. `invalid input syntax for type integer: "2.5"`; the model
keeps the stable prefix, which no claim's message depends on. -/
def pgIntSyntaxError : String := "invalid input syntax for type integer"

/-- The new state committed by a successful invest (`backend/index.js`
lines 165-184): every `assets` row matching the requested id has
`tokens_available` decremented by `tokensToBuy` (an integer whenever the
UPDATE binds, so the decrement is `toBuy.num`); every `dashboard` row
matching the id of the row that was read gets the recomputed balances. -/
def successState (st : St) (aid : ℕ) (toBuy : ℚ) (asset : Asset) (dash : Dashboard) : St :=
  let totalCost := asset.price_per_token * toBuy
  { dashboard := st.dashboard.map fun d =>
      if d.id == dash.id then
        { d with
          wallet_balance := dash.wallet_balance - totalCost,
          total_investment := dash.total_investment + totalCost,
          monthly_yield := dash.monthly_yield + (totalCost * (asset.apy / 100)) / 12 }
      else d,
    assets := st.assets.map fun a =>
      if a.id == aid then { a with tokens_available := a.tokens_available - toBuy.num }
      else a }

/-- The `data` object computed on success (`backend/index.js`
lines 156, 172-177, 189-194). -/
def successData (asset : Asset) (dash : Dashboard) (toBuy : ℚ) : InvestData :=
  let totalCost := asset.price_per_token * toBuy
  { spent := totalCost,
    remainingBalance := dash.wallet_balance - totalCost,
    newTotalInvestment := dash.total_investment + totalCost,
    newMonthlyYield := dash.monthly_yield + (totalCost * (asset.apy / 100)) / 12 }

/-- Body of the `try` block of the `/invest` handler (`backend/index.js`
lines 142-195), with each store operation able to throw per the fault
oracle. The `none` branch of the dashboard read models the JavaScript
`TypeError` thrown by `dashboard.wallet_balance` when `rows[0]` is
`undefined` (line 161). The assets UPDATE first binds `$1` against the
INTEGER column: a non-integral `tokensToBuy` (den ≠ 1) fails at Bind with
`pgIntSyntaxError` before the statement executes. Returns the success
payload and the state the transaction commits, or the message of the first
error thrown. -/
def investBody (f : StoreFaults) (st : St) (aid : ℕ) (toBuy : ℚ) :
    Except String (InvestData × St) :=
  match f.beginFault with
  | some m => .error m
  | none =>
  match f.assetQueryFault with
  | some m => .error m
  | none =>
  match findAsset st.assets aid with
  | none => .error "Asset not found"
  | some asset =>
  if (asset.tokens_available : ℚ) < toBuy then
    .error "Not enough tokens available in this asset"
  else
  match f.dashQueryFault with
  | some m => .error m
  | none =>
  match st.dashboard.head? with
  | none => .error "Cannot read properties of undefined (reading 'wallet_balance')"
  | some dash =>
  if dash.wallet_balance < asset.price_per_token * toBuy then
    .error "Insufficient wallet balance to complete transaction"
  else
  if toBuy.den == 1 then
    match f.updateAssetFault with
    | some m => .error m
    | none =>
    match f.updateDashFault with
    | some m => .error m
    | none =>
    match f.commitFault with
    | some m => .error m
    | none =>
    .ok (successData asset dash toBuy, successState st aid toBuy asset dash)
  else .error pgIntSyntaxError

/-- The whole `POST /invest` handler (`backend/index.js` lines 132-203)
under fault oracle `f`: input validation, then the transaction body; any
thrown error reaches the single catch, which rolls the transaction back
(the returned state is the original one) and answers 400 with the error
message. -/
def investCore (f : StoreFaults) (st : St) (assetId : Option ℕ) (tokensToBuy : Option ℚ) :
    InvestResult × St :=
  if validInvestInput assetId tokensToBuy then
    match investBody f st (assetId.getD 0) (tokensToBuy.getD 0) with
    | .ok (d, st') => (.ok d, st')
    | .error m => (.businessError m, st)
  else (.validationError, st)

/-- The `POST /invest` handler with a healthy store. -/
def invest (st : St) (assetId : Option ℕ) (tokensToBuy : Option ℚ) : InvestResult × St :=
  investCore noFaults st assetId tokensToBuy

/-- A finite sequence of `/invest` requests applied to the store. -/
def investSeq (st : St) (reqs : List (Option ℕ × Option ℚ)) : St :=
  reqs.foldl (fun s r => (invest s r.1 r.2).2) st

/-- The Dashboard row inserted by the seed (`backend/index.js` line 71);
SERIAL assigns id 1 on the first insert into an empty table. -/
def seedDashboard : Dashboard :=
  { id := 1, wallet_balance := 15000, total_investment := 5200, monthly_yield := 435.5 }

/-- First seeded asset (`backend/index.js` line 78). -/
def skylineAsset : Asset :=
  { id := 1, name := "Skyline Apartments", location := "New York, NY",
    apy := 8.5, price_per_token := 50, tokens_available := 1000 }

/-- Second seeded asset (`backend/index.js` line 79). -/
def oceanAsset : Asset :=
  { id := 2, name := "Ocean View Villa", location := "Miami, FL",
    apy := 12, price_per_token := 150, tokens_available := 500 }

/-- Third seeded asset (`backend/index.js` line 80). -/
def mountainAsset : Asset :=
  { id := 3, name := "Mountain Retreat", location := "Aspen, CO",
    apy := 10.2, price_per_token := 75, tokens_available := 800 }

/-- Fourth seeded asset (`backend/index.js` line 81). -/
def downtownAsset : Asset :=
  { id := 4, name := "Downtown Office", location := "Chicago, IL",
    apy := 9.8, price_per_token := 120, tokens_available := 1200 }

/-- The four Asset rows inserted by the seed (`backend/index.js`
lines 77-88); SERIAL assigns ids 1-4 in insertion order. -/
def seedAssets : List Asset :=
  [skylineAsset, oceanAsset, mountainAsset, downtownAsset]

/-- First half of `seedData` (`backend/index.js` lines 69-73): insert the
dashboard row only if `COUNT(*) FROM dashboard` is 0. -/
def seedDashboardStep (st : St) : St :=
  if st.dashboard.length == 0 then { st with dashboard := st.dashboard ++ [seedDashboard] }
  else st

/-- Second half of `seedData` (`backend/index.js` lines 75-90): insert the
four asset rows only if `COUNT(*) FROM assets` is 0. -/
def seedAssetsStep (st : St) : St :=
  if st.assets.length == 0 then { st with assets := st.assets ++ seedAssets }
  else st

/-- `seedData` (`backend/index.js` lines 67-94): the guarded dashboard
insert followed by the guarded assets insert. -/
def seedData (st : St) : St := seedAssetsStep (seedDashboardStep st)

/-- `initDB` (`backend/index.js` lines 97-108): on the list model of the
store, `CREATE DATABASE`/`CREATE TABLE IF NOT EXISTS` are identities
(the tables always exist), so initialization is the seed step. -/
def initDB (st : St) : St := seedData st

/-- The store with both tables empty, as after schema creation. -/
def emptySt : St := { dashboard := [], assets := [] }

/-- The store right after a first successful bootstrap. -/
def seededSt : St := { dashboard := [seedDashboard], assets := seedAssets }

/-! ## Basic lemmas about the handler's branches -/

theorem findAsset_eq_find? (l : List Asset) (aid : ℕ) :
    findAsset l aid = l.find? (fun a => a.id == aid) := by
  induction l with
  | nil => rfl
  | cons a rest ih =>
    cases hb : (a.id == aid) <;> simp [findAsset, List.find?_cons, hb, ih]

theorem findAsset_mem {l : List Asset} {aid : ℕ} {asset : Asset}
    (h : findAsset l aid = some asset) : asset ∈ l := by
  rw [findAsset_eq_find?] at h
  exact List.mem_of_find?_eq_some h

theorem findAsset_id {l : List Asset} {aid : ℕ} {asset : Asset}
    (h : findAsset l aid = some asset) : asset.id = aid := by
  rw [findAsset_eq_find?] at h
  have := List.find?_some h
  simpa using this

theorem investBody_run {st : St} {aid : ℕ} {toBuy : ℚ} {asset : Asset} {dash : Dashboard}
    (hA : findAsset st.assets aid = some asset)
    (hTok : ¬ (asset.tokens_available : ℚ) < toBuy)
    (hD : st.dashboard.head? = some dash)
    (hBal : ¬ dash.wallet_balance < asset.price_per_token * toBuy)
    (hInt : toBuy.den = 1) :
    investBody noFaults st aid toBuy =
      .ok (successData asset dash toBuy, successState st aid toBuy asset dash) := by
  unfold investBody
  rw [hA, hD]
  simp [noFaults, hTok, hBal, hInt]

theorem investBody_notFound {st : St} {aid : ℕ} {toBuy : ℚ}
    (hA : findAsset st.assets aid = none) :
    investBody noFaults st aid toBuy = .error "Asset not found" := by
  unfold investBody
  rw [hA]
  simp [noFaults]

theorem investBody_insufficientTokens {st : St} {aid : ℕ} {toBuy : ℚ} {asset : Asset}
    (hA : findAsset st.assets aid = some asset)
    (hTok : (asset.tokens_available : ℚ) < toBuy) :
    investBody noFaults st aid toBuy = .error "Not enough tokens available in this asset" := by
  unfold investBody
  rw [hA]
  simp [noFaults, hTok]

theorem investBody_noDashboard {st : St} {aid : ℕ} {toBuy : ℚ} {asset : Asset}
    (hA : findAsset st.assets aid = some asset)
    (hTok : ¬ (asset.tokens_available : ℚ) < toBuy)
    (hD : st.dashboard.head? = none) :
    investBody noFaults st aid toBuy =
      .error "Cannot read properties of undefined (reading 'wallet_balance')" := by
  unfold investBody
  rw [hA, hD]
  simp [noFaults, hTok]

theorem investBody_insufficientBalance {st : St} {aid : ℕ} {toBuy : ℚ} {asset : Asset}
    {dash : Dashboard}
    (hA : findAsset st.assets aid = some asset)
    (hTok : ¬ (asset.tokens_available : ℚ) < toBuy)
    (hD : st.dashboard.head? = some dash)
    (hBal : dash.wallet_balance < asset.price_per_token * toBuy) :
    investBody noFaults st aid toBuy =
      .error "Insufficient wallet balance to complete transaction" := by
  unfold investBody
  rw [hA, hD]
  simp [noFaults, hTok, hBal]

theorem investBody_bindError {st : St} {aid : ℕ} {toBuy : ℚ} {asset : Asset}
    {dash : Dashboard}
    (hA : findAsset st.assets aid = some asset)
    (hTok : ¬ (asset.tokens_available : ℚ) < toBuy)
    (hD : st.dashboard.head? = some dash)
    (hBal : ¬ dash.wallet_balance < asset.price_per_token * toBuy)
    (hInt : ¬ toBuy.den = 1) :
    investBody noFaults st aid toBuy = .error pgIntSyntaxError := by
  unfold investBody
  rw [hA, hD]
  simp [noFaults, hTok, hBal, hInt]

theorem investBody_ok_inv {st : St} {aid : ℕ} {toBuy : ℚ} {out : InvestData × St}
    (h : investBody noFaults st aid toBuy = .ok out) :
    ∃ asset dash,
      findAsset st.assets aid = some asset ∧
      ¬ (asset.tokens_available : ℚ) < toBuy ∧
      st.dashboard.head? = some dash ∧
      ¬ dash.wallet_balance < asset.price_per_token * toBuy ∧
      toBuy.den = 1 ∧
      out = (successData asset dash toBuy, successState st aid toBuy asset dash) := by
  cases hA : findAsset st.assets aid with
  | none => rw [investBody_notFound hA] at h; cases h
  | some asset =>
    by_cases hTok : (asset.tokens_available : ℚ) < toBuy
    · rw [investBody_insufficientTokens hA hTok] at h; cases h
    · cases hD : st.dashboard.head? with
      | none => rw [investBody_noDashboard hA hTok hD] at h; cases h
      | some dash =>
        by_cases hBal : dash.wallet_balance < asset.price_per_token * toBuy
        · rw [investBody_insufficientBalance hA hTok hD hBal] at h; cases h
        · by_cases hInt : toBuy.den = 1
          · rw [investBody_run hA hTok hD hBal hInt] at h
            exact ⟨asset, dash, rfl, hTok, rfl, hBal, hInt, (Except.ok.inj h).symm⟩
          · rw [investBody_bindError hA hTok hD hBal hInt] at h; cases h

theorem investCore_invalid {f : StoreFaults} {st : St} {assetId : Option ℕ}
    {tokensToBuy : Option ℚ} (hv : validInvestInput assetId tokensToBuy = false) :
    investCore f st assetId tokensToBuy = (.validationError, st) := by
  unfold investCore
  rw [hv]
  simp

theorem invest_error {st : St} {assetId : Option ℕ} {tokensToBuy : Option ℚ} {m : String}
    (hv : validInvestInput assetId tokensToBuy = true)
    (hb : investBody noFaults st (assetId.getD 0) (tokensToBuy.getD 0) = .error m) :
    invest st assetId tokensToBuy = (.businessError m, st) := by
  unfold invest investCore
  rw [hv, hb]
  simp

theorem invest_ok {st : St} {assetId : Option ℕ} {tokensToBuy : Option ℚ}
    {d : InvestData} {st' : St}
    (hv : validInvestInput assetId tokensToBuy = true)
    (hb : investBody noFaults st (assetId.getD 0) (tokensToBuy.getD 0) = .ok (d, st')) :
    invest st assetId tokensToBuy = (.ok d, st') := by
  unfold invest investCore
  rw [hv, hb]
  rfl

theorem invest_ok_inv {st : St} {assetId : Option ℕ} {tokensToBuy : Option ℚ}
    {data : InvestData} {st' : St}
    (h : invest st assetId tokensToBuy = (.ok data, st')) :
    validInvestInput assetId tokensToBuy = true ∧
    ∃ asset dash,
      findAsset st.assets (assetId.getD 0) = some asset ∧
      ¬ (asset.tokens_available : ℚ) < tokensToBuy.getD 0 ∧
      st.dashboard.head? = some dash ∧
      ¬ dash.wallet_balance < asset.price_per_token * (tokensToBuy.getD 0) ∧
      (tokensToBuy.getD 0).den = 1 ∧
      data = successData asset dash (tokensToBuy.getD 0) ∧
      st' = successState st (assetId.getD 0) (tokensToBuy.getD 0) asset dash := by
  by_cases hv : validInvestInput assetId tokensToBuy = true
  · cases hb : investBody noFaults st (assetId.getD 0) (tokensToBuy.getD 0) with
    | error m => rw [invest_error hv hb] at h; cases h
    | ok out =>
      obtain ⟨asset, dash, hA, hTok, hD, hBal, hInt, hout⟩ := investBody_ok_inv hb
      rw [hout] at hb
      rw [invest_ok hv hb] at h
      injection h with h1 h2
      exact ⟨hv, asset, dash, hA, hTok, hD, hBal, hInt, (InvestResult.ok.inj h1).symm, h2.symm⟩
  · have hv' : validInvestInput assetId tokensToBuy = false := Bool.not_eq_true _ ▸ hv
    unfold invest at h
    rw [investCore_invalid hv'] at h
    cases h

theorem findAsset_map (g : Asset → Asset) (hg : ∀ a, (g a).id = a.id)
    (l : List Asset) (aid : ℕ) :
    findAsset (l.map g) aid = (findAsset l aid).map g := by
  induction l with
  | nil => rfl
  | cons a rest ih =>
    simp only [List.map_cons, findAsset, hg a]
    cases hb : (a.id == aid) with
    | true => simp
    | false => simpa using ih

theorem findAsset_update (l : List Asset) (aid : ℕ) (z : ℤ) :
    findAsset
      (l.map fun a =>
        if a.id == aid then { a with tokens_available := a.tokens_available - z } else a)
      aid
      = (findAsset l aid).map
          (fun a => { a with tokens_available := a.tokens_available - z }) := by
  rw [findAsset_map
    (fun a =>
      if a.id == aid then { a with tokens_available := a.tokens_available - z } else a)
    (fun a => by cases hc : (a.id == aid) <;> simp [hc])]
  cases hA : findAsset l aid with
  | none => rfl
  | some asset =>
    have : asset.id = aid := findAsset_id hA
    simp [this]

theorem successState_dashboard_head {st : St} {dash : Dashboard}
    (hD : st.dashboard.head? = some dash) (aid : ℕ) (toBuy : ℚ) (asset : Asset) :
    (successState st aid toBuy asset dash).dashboard.head? = some
      { dash with
        wallet_balance := dash.wallet_balance - asset.price_per_token * toBuy,
        total_investment := dash.total_investment + asset.price_per_token * toBuy,
        monthly_yield :=
          dash.monthly_yield + ((asset.price_per_token * toBuy) * (asset.apy / 100)) / 12 } := by
  simp [successState, List.head?_map, hD]

/-! ## The claims -/

/-- The since-seeded example store after buying 10 tokens of asset 1. -/
def exSt : St :=
  { dashboard :=
      [{ id := 1, wallet_balance := 14500, total_investment := 5700, monthly_yield := 10537/24 }],
    assets :=
      [{ skylineAsset with tokens_available := 990 }, oceanAsset, mountainAsset, downtownAsset] }

/-- The response data of that example purchase. -/
def exData : InvestData :=
  { spent := 500, remainingBalance := 14500, newTotalInvestment := 5700,
    newMonthlyYield := 10537/24 }

/-- C1: for every successful `invest(assetId, tokensToBuy)` call, the response
satisfies `spent = totalCost`, `newTotalInvestment = oldTotalInvestment + totalCost`
and `remainingBalance = oldWalletBalance - totalCost` with
`totalCost = pricePerToken * tokensToBuy` of the purchased asset, the committed
dashboard row carries the same new values, and the asset's `tokens_available`
decreases by exactly `tokensToBuy` (the integer `toBuy.num`, which equals
`tokensToBuy`: a purchase only commits when the bound parameter is
integral). -/
theorem invest_success_accounting (st : St) (aid : ℕ) (toBuy : ℚ) (data : InvestData)
    (st' : St) (asset : Asset) (dash : Dashboard)
    (hA : findAsset st.assets aid = some asset)
    (hD : st.dashboard.head? = some dash)
    (h : invest st (some aid) (some toBuy) = (.ok data, st')) :
    data.spent = asset.price_per_token * toBuy ∧
    data.newTotalInvestment = dash.total_investment + asset.price_per_token * toBuy ∧
    data.remainingBalance = dash.wallet_balance - asset.price_per_token * toBuy ∧
    st'.dashboard.head? = some
      { dash with
        wallet_balance := dash.wallet_balance - asset.price_per_token * toBuy,
        total_investment := dash.total_investment + asset.price_per_token * toBuy,
        monthly_yield :=
          dash.monthly_yield + ((asset.price_per_token * toBuy) * (asset.apy / 100)) / 12 } ∧
    findAsset st'.assets aid =
      some { asset with tokens_available := asset.tokens_available - toBuy.num } ∧
    (toBuy.num : ℚ) = toBuy := by
  obtain ⟨hv, asset', dash', hA', hTok, hD', hBal, hInt, hdata, hst'⟩ := invest_ok_inv h
  simp only [Option.getD_some] at hA' hTok hBal hInt hdata hst'
  obtain rfl : asset = asset' := Option.some.inj (hA.symm.trans hA')
  obtain rfl : dash = dash' := Option.some.inj (hD.symm.trans hD')
  subst hdata hst'
  refine ⟨rfl, rfl, rfl, successState_dashboard_head hD aid toBuy asset, ?_,
    Rat.coe_int_num_of_den_eq_one hInt⟩
  simp only [successState, findAsset_update, hA, Option.map_some']

/-- Witness for C1: buying 10 tokens of asset 1 from the seeded store. -/
theorem invest_success_accounting_witness :
    findAsset seededSt.assets 1 = some skylineAsset ∧
    seededSt.dashboard.head? = some seedDashboard ∧
    invest seededSt (some 1) (some 10) = (.ok exData, exSt) ∧
    (exData.spent = skylineAsset.price_per_token * 10 ∧
     exData.newTotalInvestment = seedDashboard.total_investment + skylineAsset.price_per_token * 10 ∧
     exData.remainingBalance = seedDashboard.wallet_balance - skylineAsset.price_per_token * 10 ∧
     exSt.dashboard.head? = some
       { seedDashboard with
         wallet_balance := seedDashboard.wallet_balance - skylineAsset.price_per_token * 10,
         total_investment := seedDashboard.total_investment + skylineAsset.price_per_token * 10,
         monthly_yield :=
           seedDashboard.monthly_yield +
             ((skylineAsset.price_per_token * 10) * (skylineAsset.apy / 100)) / 12 } ∧
     findAsset exSt.assets 1 =
       some { skylineAsset with
              tokens_available := skylineAsset.tokens_available - (10:ℚ).num } ∧
     (((10:ℚ).num : ℚ) = 10)) :=
  ⟨by norm_num [findAsset, seededSt, seedAssets, skylineAsset],
   by norm_num [seededSt],
   by norm_num [invest, investCore, investBody, validInvestInput, truthyNat, truthyQ,
     findAsset, seededSt, seedAssets, seedDashboard, skylineAsset, oceanAsset, mountainAsset,
     downtownAsset, noFaults, successData, successState, exData, exSt],
   invest_success_accounting seededSt 1 10 exData exSt skylineAsset seedDashboard
     (by norm_num [findAsset, seededSt, seedAssets, skylineAsset])
     (by norm_num [seededSt])
     (by norm_num [invest, investCore, investBody, validInvestInput, truthyNat, truthyQ,
       findAsset, seededSt, seedAssets, seedDashboard, skylineAsset, oceanAsset, mountainAsset,
       downtownAsset, noFaults, successData, successState, exData, exSt])⟩

/-- C2: on every successful invest, the new `monthly_yield` is the old one
plus `addedMonthlyYield = (totalCost * (apy / 100)) / 12`, and this value is
the `newMonthlyYield` field of the success response. -/
theorem invest_monthly_yield (st : St) (aid : ℕ) (toBuy : ℚ) (data : InvestData)
    (st' : St) (asset : Asset) (dash : Dashboard)
    (hA : findAsset st.assets aid = some asset)
    (hD : st.dashboard.head? = some dash)
    (h : invest st (some aid) (some toBuy) = (.ok data, st')) :
    data.newMonthlyYield =
      dash.monthly_yield + ((asset.price_per_token * toBuy) * (asset.apy / 100)) / 12 ∧
    (st'.dashboard.head?).map Dashboard.monthly_yield =
      some (dash.monthly_yield + ((asset.price_per_token * toBuy) * (asset.apy / 100)) / 12) := by
  obtain ⟨hv, asset', dash', hA', hTok, hD', hBal, hInt, hdata, hst'⟩ := invest_ok_inv h
  simp only [Option.getD_some] at hA' hTok hBal hInt hdata hst'
  obtain rfl : asset = asset' := Option.some.inj (hA.symm.trans hA')
  obtain rfl : dash = dash' := Option.some.inj (hD.symm.trans hD')
  subst hdata hst'
  refine ⟨rfl, ?_⟩
  rw [successState_dashboard_head hD aid toBuy asset]
  rfl

/-- Witness for C2: buying 10 tokens of asset 1 from the seeded store. -/
theorem invest_monthly_yield_witness :
    findAsset seededSt.assets 1 = some skylineAsset ∧
    seededSt.dashboard.head? = some seedDashboard ∧
    invest seededSt (some 1) (some 10) = (.ok exData, exSt) ∧
    (exData.newMonthlyYield =
       seedDashboard.monthly_yield +
         ((skylineAsset.price_per_token * 10) * (skylineAsset.apy / 100)) / 12 ∧
     (exSt.dashboard.head?).map Dashboard.monthly_yield =
       some (seedDashboard.monthly_yield +
         ((skylineAsset.price_per_token * 10) * (skylineAsset.apy / 100)) / 12)) :=
  ⟨by norm_num [findAsset, seededSt, seedAssets, skylineAsset],
   by norm_num [seededSt],
   by norm_num [invest, investCore, investBody, validInvestInput, truthyNat, truthyQ,
     findAsset, seededSt, seedAssets, seedDashboard, skylineAsset, oceanAsset, mountainAsset,
     downtownAsset, noFaults, successData, successState, exData, exSt],
   invest_monthly_yield seededSt 1 10 exData exSt skylineAsset seedDashboard
     (by norm_num [findAsset, seededSt, seedAssets, skylineAsset])
     (by norm_num [seededSt])
     (by norm_num [invest, investCore, investBody, validInvestInput, truthyNat, truthyQ,
       findAsset, seededSt, seedAssets, seedDashboard, skylineAsset, oceanAsset, mountainAsset,
       downtownAsset, noFaults, successData, successState, exData, exSt])⟩

/-- C3 counterexample: the request `{assetId: 1, tokensToBuy: 2.5}` has a
fractional `tokensToBuy`, yet `!assetId || !tokensToBuy || tokensToBuy <= 0`
does not reject it: validation passes, the handler opens a transaction and
runs the business checks against the store, and the request fails only when
the assets UPDATE binds 2.5 against the INTEGER `tokens_available` column —
a rolled-back 400 store error, not the claimed 400 ValidationError issued
before any store access. -/
theorem invest_fractional_not_validation_rejected :
    validInvestInput (some 1) (some (5/2)) = true ∧
    invest seededSt (some 1) (some (5/2)) = (.businessError pgIntSyntaxError, seededSt) ∧
    (invest seededSt (some 1) (some (5/2))).1 ≠ .validationError := by
  have h : invest seededSt (some 1) (some (5/2)) =
      (.businessError pgIntSyntaxError, seededSt) := by
    norm_num [invest, investCore, investBody, validInvestInput, truthyNat, truthyQ,
      findAsset, seededSt, seedAssets, seedDashboard, skylineAsset, noFaults]
  refine ⟨by norm_num [validInvestInput, truthyNat, truthyQ], h, ?_⟩
  rw [h]
  show InvestResult.businessError pgIntSyntaxError ≠ .validationError
  decide

/-- C3 amended: a request whose `assetId` is missing (or `0`, which is falsy)
or whose `tokensToBuy` is missing, zero or negative is rejected as a 400
validation error before any store operation runs, under every fault oracle,
and the state is unchanged. (A fractional positive `tokensToBuy` is NOT
rejected by this validation: it reaches the store and fails only at the
UPDATE's integer Bind; see the counterexample.) -/
theorem invest_invalid_input_rejected (f : StoreFaults) (st : St) (assetId : Option ℕ)
    (tokensToBuy : Option ℚ)
    (hv : validInvestInput assetId tokensToBuy = false) :
    investCore f st assetId tokensToBuy = (.validationError, st) ∧
    investStatus (investCore f st assetId tokensToBuy).1 = 400 := by
  have h : investCore f st assetId tokensToBuy = (.validationError, st) :=
    investCore_invalid hv
  exact ⟨h, by rw [h]; rfl⟩

/-- Witness for the amended C3: `tokensToBuy = 0` at the seeded store. -/
theorem invest_invalid_input_rejected_witness :
    validInvestInput (some 1) (some 0) = false ∧
    (investCore noFaults seededSt (some 1) (some 0) = (.validationError, seededSt) ∧
     investStatus (investCore noFaults seededSt (some 1) (some 0)).1 = 400) :=
  ⟨by norm_num [validInvestInput, truthyNat, truthyQ],
   invest_invalid_input_rejected noFaults seededSt (some 1) (some 0)
     (by norm_num [validInvestInput, truthyNat, truthyQ])⟩

/-- C4: a request passing validation whose `assetId` matches no asset row
fails with a 400 response carrying exactly the message "Asset not found", and
the rolled-back state is unchanged. -/
theorem invest_asset_not_found (st : St) (assetId : Option ℕ) (tokensToBuy : Option ℚ)
    (hv : validInvestInput assetId tokensToBuy = true)
    (hA : findAsset st.assets (assetId.getD 0) = none) :
    invest st assetId tokensToBuy = (.businessError "Asset not found", st) ∧
    investStatus (invest st assetId tokensToBuy).1 = 400 := by
  have h := invest_error hv (investBody_notFound hA)
  exact ⟨h, by rw [h]; rfl⟩

/-- Witness for C4: asset id 99 does not exist in the seeded store. -/
theorem invest_asset_not_found_witness :
    validInvestInput (some 99) (some 10) = true ∧
    findAsset seededSt.assets ((some 99).getD 0) = none ∧
    (invest seededSt (some 99) (some 10) = (.businessError "Asset not found", seededSt) ∧
     investStatus (invest seededSt (some 99) (some 10)).1 = 400) :=
  ⟨by norm_num [validInvestInput, truthyNat, truthyQ],
   by norm_num [findAsset, seededSt, seedAssets, skylineAsset, oceanAsset, mountainAsset,
     downtownAsset],
   invest_asset_not_found seededSt (some 99) (some 10)
     (by norm_num [validInvestInput, truthyNat, truthyQ])
     (by norm_num [findAsset, seededSt, seedAssets, skylineAsset, oceanAsset, mountainAsset,
       downtownAsset])⟩

/-- C5 counterexample: requesting 2000 tokens of asset 1 (1000 available)
fails, but the message is "Not enough tokens available in this asset", not the
claimed "Not enough tokens available". -/
theorem invest_inventory_message_differs :
    (invest seededSt (some 1) (some 2000)).1 =
      .businessError "Not enough tokens available in this asset" ∧
    (invest seededSt (some 1) (some 2000)).1 ≠
      .businessError "Not enough tokens available" := by
  have h : invest seededSt (some 1) (some 2000) =
      (.businessError "Not enough tokens available in this asset", seededSt) := by
    norm_num [invest, investCore, investBody, validInvestInput, truthyNat, truthyQ,
      findAsset, seededSt, seedAssets, seedDashboard, skylineAsset, noFaults]
  exact ⟨by rw [h], by rw [h]; decide⟩

/-- C5 amended: for a validated request whose asset exists, insufficient
inventory (`tokens_available < tokensToBuy`) fails with 400 and exactly the
message "Not enough tokens available in this asset", leaving the state
unchanged; when inventory suffices this failure message can never be
produced. -/
theorem invest_insufficient_inventory (st : St) (assetId : Option ℕ)
    (tokensToBuy : Option ℚ) (asset : Asset)
    (hv : validInvestInput assetId tokensToBuy = true)
    (hA : findAsset st.assets (assetId.getD 0) = some asset) :
    ((asset.tokens_available : ℚ) < tokensToBuy.getD 0 →
      invest st assetId tokensToBuy =
        (.businessError "Not enough tokens available in this asset", st) ∧
      investStatus (invest st assetId tokensToBuy).1 = 400) ∧
    (¬ (asset.tokens_available : ℚ) < tokensToBuy.getD 0 →
      (invest st assetId tokensToBuy).1 ≠
        .businessError "Not enough tokens available in this asset") := by
  constructor
  · intro hTok
    have h := invest_error hv (investBody_insufficientTokens hA hTok)
    exact ⟨h, by rw [h]; rfl⟩
  · intro hTok
    cases hD : st.dashboard.head? with
    | none =>
      rw [invest_error hv (investBody_noDashboard hA hTok hD)]
      show InvestResult.businessError
          "Cannot read properties of undefined (reading 'wallet_balance')" ≠ _
      decide
    | some dash =>
      by_cases hBal : dash.wallet_balance < asset.price_per_token * (tokensToBuy.getD 0)
      · rw [invest_error hv (investBody_insufficientBalance hA hTok hD hBal)]
        show InvestResult.businessError
            "Insufficient wallet balance to complete transaction" ≠ _
        decide
      · by_cases hInt : (tokensToBuy.getD 0).den = 1
        · rw [invest_ok hv (investBody_run hA hTok hD hBal hInt)]
          simp
        · rw [invest_error hv (investBody_bindError hA hTok hD hBal hInt)]
          show InvestResult.businessError pgIntSyntaxError ≠ _
          decide

/-- Witness for the amended C5: 2000 tokens of asset 1 at the seeded store. -/
theorem invest_insufficient_inventory_witness :
    validInvestInput (some 1) (some 2000) = true ∧
    findAsset seededSt.assets ((some 1).getD 0) = some skylineAsset ∧
    (((skylineAsset.tokens_available : ℚ) < (some (2000:ℚ)).getD 0 →
      invest seededSt (some 1) (some 2000) =
        (.businessError "Not enough tokens available in this asset", seededSt) ∧
      investStatus (invest seededSt (some 1) (some 2000)).1 = 400) ∧
    (¬ (skylineAsset.tokens_available : ℚ) < (some (2000:ℚ)).getD 0 →
      (invest seededSt (some 1) (some 2000)).1 ≠
        .businessError "Not enough tokens available in this asset")) :=
  ⟨by norm_num [validInvestInput, truthyNat, truthyQ],
   by norm_num [findAsset, seededSt, seedAssets, skylineAsset],
   invest_insufficient_inventory seededSt (some 1) (some 2000) skylineAsset
     (by norm_num [validInvestInput, truthyNat, truthyQ])
     (by norm_num [findAsset, seededSt, seedAssets, skylineAsset])⟩

/-- C6 counterexample: buying 500 tokens of asset 2 costs 75000 > 15000
wallet balance; the request fails, but the message is "Insufficient wallet
balance to complete transaction", not the claimed "Insufficient wallet
balance". -/
theorem invest_balance_message_differs :
    (invest seededSt (some 2) (some 500)).1 =
      .businessError "Insufficient wallet balance to complete transaction" ∧
    (invest seededSt (some 2) (some 500)).1 ≠
      .businessError "Insufficient wallet balance" := by
  have h : invest seededSt (some 2) (some 500) =
      (.businessError "Insufficient wallet balance to complete transaction", seededSt) := by
    norm_num [invest, investCore, investBody, validInvestInput, truthyNat, truthyQ,
      findAsset, seededSt, seedAssets, seedDashboard, skylineAsset, oceanAsset, noFaults]
  exact ⟨by rw [h], by rw [h]; decide⟩

/-- C6 amended: for a validated request whose asset exists with sufficient
inventory, if `totalCost = pricePerToken * tokensToBuy` exceeds the wallet
balance of the dashboard row, the operation fails with 400 and exactly the
message "Insufficient wallet balance to complete transaction", and the
rolled-back state is unchanged — in particular the asset decrement is not
visible. -/
theorem invest_insufficient_balance (st : St) (assetId : Option ℕ)
    (tokensToBuy : Option ℚ) (asset : Asset) (dash : Dashboard)
    (hv : validInvestInput assetId tokensToBuy = true)
    (hA : findAsset st.assets (assetId.getD 0) = some asset)
    (hTok : ¬ (asset.tokens_available : ℚ) < tokensToBuy.getD 0)
    (hD : st.dashboard.head? = some dash)
    (hBal : dash.wallet_balance < asset.price_per_token * tokensToBuy.getD 0) :
    invest st assetId tokensToBuy =
      (.businessError "Insufficient wallet balance to complete transaction", st) ∧
    investStatus (invest st assetId tokensToBuy).1 = 400 := by
  have h := invest_error hv (investBody_insufficientBalance hA hTok hD hBal)
  exact ⟨h, by rw [h]; rfl⟩

/-- Witness for the amended C6: 500 tokens of asset 2 at the seeded store. -/
theorem invest_insufficient_balance_witness :
    validInvestInput (some 2) (some 500) = true ∧
    findAsset seededSt.assets ((some 2).getD 0) = some oceanAsset ∧
    ¬ (oceanAsset.tokens_available : ℚ) < (some (500:ℚ)).getD 0 ∧
    seededSt.dashboard.head? = some seedDashboard ∧
    seedDashboard.wallet_balance < oceanAsset.price_per_token * (some (500:ℚ)).getD 0 ∧
    (invest seededSt (some 2) (some 500) =
      (.businessError "Insufficient wallet balance to complete transaction", seededSt) ∧
     investStatus (invest seededSt (some 2) (some 500)).1 = 400) :=
  ⟨by norm_num [validInvestInput, truthyNat, truthyQ],
   by norm_num [findAsset, seededSt, seedAssets, skylineAsset, oceanAsset],
   by norm_num [oceanAsset],
   by norm_num [seededSt],
   by norm_num [oceanAsset, seedDashboard],
   invest_insufficient_balance seededSt (some 2) (some 500) oceanAsset seedDashboard
     (by norm_num [validInvestInput, truthyNat, truthyQ])
     (by norm_num [findAsset, seededSt, seedAssets, skylineAsset, oceanAsset])
     (by norm_num [oceanAsset])
     (by norm_num [seededSt])
     (by norm_num [oceanAsset, seedDashboard])⟩

/-- A store where the asset SELECT throws a connectivity error. -/
def faultedStore : StoreFaults :=
  ⟨none, some "Connection terminated unexpectedly", none, none, none, none⟩

/-- C8 counterexample: an infrastructure failure of the asset query inside the
transaction is caught by the single catch block and answered with status 400 —
the same client-error status as business rejections, not a 5xx server error. -/
theorem invest_store_fault_not_5xx :
    investCore faultedStore seededSt (some 1) (some 10) =
      (.businessError "Connection terminated unexpectedly", seededSt) ∧
    investStatus (investCore faultedStore seededSt (some 1) (some 10)).1 = 400 ∧
    ¬ 500 ≤ investStatus (investCore faultedStore seededSt (some 1) (some 10)).1 := by
  have h : investCore faultedStore seededSt (some 1) (some 10) =
      (.businessError "Connection terminated unexpectedly", seededSt) := by
    norm_num [investCore, investBody, validInvestInput, truthyNat, truthyQ, faultedStore]
  exact ⟨h, by rw [h]; rfl, by rw [h]; norm_num [investStatus]⟩

theorem investBody_beginFault {f : StoreFaults} {st : St} {aid : ℕ} {toBuy : ℚ}
    {msg : String} (h : f.beginFault = some msg) :
    investBody f st aid toBuy = .error msg := by
  unfold investBody
  rw [h]

theorem investBody_assetQueryFault {f : StoreFaults} {st : St} {aid : ℕ} {toBuy : ℚ}
    {msg : String} (h0 : f.beginFault = none) (h1 : f.assetQueryFault = some msg) :
    investBody f st aid toBuy = .error msg := by
  unfold investBody
  rw [h0, h1]

theorem investBody_dashQueryFault {f : StoreFaults} {st : St} {aid : ℕ} {toBuy : ℚ}
    {asset : Asset} {msg : String}
    (h0 : f.beginFault = none) (h1 : f.assetQueryFault = none)
    (hA : findAsset st.assets aid = some asset)
    (hTok : ¬ (asset.tokens_available : ℚ) < toBuy)
    (h2 : f.dashQueryFault = some msg) :
    investBody f st aid toBuy = .error msg := by
  unfold investBody
  rw [h0, h1, hA, h2]
  simp [hTok]

theorem investBody_updateAssetFault {f : StoreFaults} {st : St} {aid : ℕ} {toBuy : ℚ}
    {asset : Asset} {dash : Dashboard} {msg : String}
    (h0 : f.beginFault = none) (h1 : f.assetQueryFault = none)
    (hA : findAsset st.assets aid = some asset)
    (hTok : ¬ (asset.tokens_available : ℚ) < toBuy)
    (h2 : f.dashQueryFault = none)
    (hD : st.dashboard.head? = some dash)
    (hBal : ¬ dash.wallet_balance < asset.price_per_token * toBuy)
    (hInt : toBuy.den = 1)
    (h3 : f.updateAssetFault = some msg) :
    investBody f st aid toBuy = .error msg := by
  unfold investBody
  rw [h0, h1, hA, h2, hD, h3]
  simp [hTok, hBal, hInt]

theorem investBody_updateDashFault {f : StoreFaults} {st : St} {aid : ℕ} {toBuy : ℚ}
    {asset : Asset} {dash : Dashboard} {msg : String}
    (h0 : f.beginFault = none) (h1 : f.assetQueryFault = none)
    (hA : findAsset st.assets aid = some asset)
    (hTok : ¬ (asset.tokens_available : ℚ) < toBuy)
    (h2 : f.dashQueryFault = none)
    (hD : st.dashboard.head? = some dash)
    (hBal : ¬ dash.wallet_balance < asset.price_per_token * toBuy)
    (hInt : toBuy.den = 1)
    (h3 : f.updateAssetFault = none)
    (h4 : f.updateDashFault = some msg) :
    investBody f st aid toBuy = .error msg := by
  unfold investBody
  rw [h0, h1, hA, h2, hD, h3, h4]
  simp [hTok, hBal, hInt]

theorem investBody_commitFault {f : StoreFaults} {st : St} {aid : ℕ} {toBuy : ℚ}
    {asset : Asset} {dash : Dashboard} {msg : String}
    (h0 : f.beginFault = none) (h1 : f.assetQueryFault = none)
    (hA : findAsset st.assets aid = some asset)
    (hTok : ¬ (asset.tokens_available : ℚ) < toBuy)
    (h2 : f.dashQueryFault = none)
    (hD : st.dashboard.head? = some dash)
    (hBal : ¬ dash.wallet_balance < asset.price_per_token * toBuy)
    (hInt : toBuy.den = 1)
    (h3 : f.updateAssetFault = none)
    (h4 : f.updateDashFault = none)
    (h5 : f.commitFault = some msg) :
    investBody f st aid toBuy = .error msg := by
  unfold investBody
  rw [h0, h1, hA, h2, hD, h3, h4, h5]
  simp [hTok, hBal, hInt]

theorem investCore_error {f : StoreFaults} {st : St} {assetId : Option ℕ}
    {tokensToBuy : Option ℚ} {m : String}
    (hv : validInvestInput assetId tokensToBuy = true)
    (hb : investBody f st (assetId.getD 0) (tokensToBuy.getD 0) = .error m) :
    investCore f st assetId tokensToBuy = (.businessError m, st) := by
  unfold investCore
  rw [hv, hb]
  rfl

theorem investStatus_lt_500 (r : InvestResult) : ¬ 500 ≤ investStatus r := by
  cases r <;> norm_num [investStatus]

/-- C8 amended: every store failure thrown during the invest transaction — by
BEGIN, the asset SELECT, the dashboard SELECT, the assets UPDATE, the
dashboard UPDATE or COMMIT — is caught by the handler's single catch: it
answers 400 carrying the error message and returns the original state
(rollback), exactly as for business rejections; and no invest response ever
carries a 5xx status. Each update/commit case carries the hypotheses under
which the run reaches that operation. -/
theorem invest_store_fault_client_error (f : StoreFaults) (st : St)
    (assetId : Option ℕ) (tokensToBuy : Option ℚ)
    (hv : validInvestInput assetId tokensToBuy = true) :
    (¬ 500 ≤ investStatus (investCore f st assetId tokensToBuy).1) ∧
    (∀ msg, f.beginFault = some msg →
      investCore f st assetId tokensToBuy = (.businessError msg, st)) ∧
    (∀ msg, f.beginFault = none → f.assetQueryFault = some msg →
      investCore f st assetId tokensToBuy = (.businessError msg, st)) ∧
    (∀ msg asset, f.beginFault = none → f.assetQueryFault = none →
      findAsset st.assets (assetId.getD 0) = some asset →
      ¬ (asset.tokens_available : ℚ) < tokensToBuy.getD 0 →
      f.dashQueryFault = some msg →
      investCore f st assetId tokensToBuy = (.businessError msg, st)) ∧
    (∀ msg asset dash, f.beginFault = none → f.assetQueryFault = none →
      findAsset st.assets (assetId.getD 0) = some asset →
      ¬ (asset.tokens_available : ℚ) < tokensToBuy.getD 0 →
      f.dashQueryFault = none →
      st.dashboard.head? = some dash →
      ¬ dash.wallet_balance < asset.price_per_token * tokensToBuy.getD 0 →
      (tokensToBuy.getD 0).den = 1 →
      f.updateAssetFault = some msg →
      investCore f st assetId tokensToBuy = (.businessError msg, st)) ∧
    (∀ msg asset dash, f.beginFault = none → f.assetQueryFault = none →
      findAsset st.assets (assetId.getD 0) = some asset →
      ¬ (asset.tokens_available : ℚ) < tokensToBuy.getD 0 →
      f.dashQueryFault = none →
      st.dashboard.head? = some dash →
      ¬ dash.wallet_balance < asset.price_per_token * tokensToBuy.getD 0 →
      (tokensToBuy.getD 0).den = 1 →
      f.updateAssetFault = none →
      f.updateDashFault = some msg →
      investCore f st assetId tokensToBuy = (.businessError msg, st)) ∧
    (∀ msg asset dash, f.beginFault = none → f.assetQueryFault = none →
      findAsset st.assets (assetId.getD 0) = some asset →
      ¬ (asset.tokens_available : ℚ) < tokensToBuy.getD 0 →
      f.dashQueryFault = none →
      st.dashboard.head? = some dash →
      ¬ dash.wallet_balance < asset.price_per_token * tokensToBuy.getD 0 →
      (tokensToBuy.getD 0).den = 1 →
      f.updateAssetFault = none →
      f.updateDashFault = none →
      f.commitFault = some msg →
      investCore f st assetId tokensToBuy = (.businessError msg, st)) := by
  refine ⟨investStatus_lt_500 _, ?_, ?_, ?_, ?_, ?_, ?_⟩
  · exact fun msg h => investCore_error hv (investBody_beginFault h)
  · exact fun msg h0 h1 => investCore_error hv (investBody_assetQueryFault h0 h1)
  · exact fun msg asset h0 h1 hA hTok h2 =>
      investCore_error hv (investBody_dashQueryFault h0 h1 hA hTok h2)
  · exact fun msg asset dash h0 h1 hA hTok h2 hD hBal hInt h3 =>
      investCore_error hv (investBody_updateAssetFault h0 h1 hA hTok h2 hD hBal hInt h3)
  · exact fun msg asset dash h0 h1 hA hTok h2 hD hBal hInt h3 h4 =>
      investCore_error hv (investBody_updateDashFault h0 h1 hA hTok h2 hD hBal hInt h3 h4)
  · exact fun msg asset dash h0 h1 hA hTok h2 hD hBal hInt h3 h4 h5 =>
      investCore_error hv (investBody_commitFault h0 h1 hA hTok h2 hD hBal hInt h3 h4 h5)

/-- Witness for the amended C8: the faulted asset SELECT at the seeded
store. -/
theorem invest_store_fault_client_error_witness :
    validInvestInput (some 1) (some 10) = true ∧
    ((¬ 500 ≤ investStatus (investCore faultedStore seededSt (some 1) (some 10)).1) ∧
     (∀ msg, faultedStore.beginFault = some msg →
       investCore faultedStore seededSt (some 1) (some 10) = (.businessError msg, seededSt)) ∧
     (∀ msg, faultedStore.beginFault = none → faultedStore.assetQueryFault = some msg →
       investCore faultedStore seededSt (some 1) (some 10) = (.businessError msg, seededSt)) ∧
     (∀ msg asset, faultedStore.beginFault = none → faultedStore.assetQueryFault = none →
       findAsset seededSt.assets ((some 1).getD 0) = some asset →
       ¬ (asset.tokens_available : ℚ) < (some (10:ℚ)).getD 0 →
       faultedStore.dashQueryFault = some msg →
       investCore faultedStore seededSt (some 1) (some 10) = (.businessError msg, seededSt)) ∧
     (∀ msg asset dash, faultedStore.beginFault = none →
       faultedStore.assetQueryFault = none →
       findAsset seededSt.assets ((some 1).getD 0) = some asset →
       ¬ (asset.tokens_available : ℚ) < (some (10:ℚ)).getD 0 →
       faultedStore.dashQueryFault = none →
       seededSt.dashboard.head? = some dash →
       ¬ dash.wallet_balance < asset.price_per_token * (some (10:ℚ)).getD 0 →
       ((some (10:ℚ)).getD 0).den = 1 →
       faultedStore.updateAssetFault = some msg →
       investCore faultedStore seededSt (some 1) (some 10) = (.businessError msg, seededSt)) ∧
     (∀ msg asset dash, faultedStore.beginFault = none →
       faultedStore.assetQueryFault = none →
       findAsset seededSt.assets ((some 1).getD 0) = some asset →
       ¬ (asset.tokens_available : ℚ) < (some (10:ℚ)).getD 0 →
       faultedStore.dashQueryFault = none →
       seededSt.dashboard.head? = some dash →
       ¬ dash.wallet_balance < asset.price_per_token * (some (10:ℚ)).getD 0 →
       ((some (10:ℚ)).getD 0).den = 1 →
       faultedStore.updateAssetFault = none →
       faultedStore.updateDashFault = some msg →
       investCore faultedStore seededSt (some 1) (some 10) = (.businessError msg, seededSt)) ∧
     (∀ msg asset dash, faultedStore.beginFault = none →
       faultedStore.assetQueryFault = none →
       findAsset seededSt.assets ((some 1).getD 0) = some asset →
       ¬ (asset.tokens_available : ℚ) < (some (10:ℚ)).getD 0 →
       faultedStore.dashQueryFault = none →
       seededSt.dashboard.head? = some dash →
       ¬ dash.wallet_balance < asset.price_per_token * (some (10:ℚ)).getD 0 →
       ((some (10:ℚ)).getD 0).den = 1 →
       faultedStore.updateAssetFault = none →
       faultedStore.updateDashFault = none →
       faultedStore.commitFault = some msg →
       investCore faultedStore seededSt (some 1) (some 10) =
         (.businessError msg, seededSt))) :=
  ⟨by norm_num [validInvestInput, truthyNat, truthyQ],
   invest_store_fault_client_error faultedStore seededSt (some 1) (some 10)
     (by norm_num [validInvestInput, truthyNat, truthyQ])⟩

theorem seedDashboardStep_assets (st : St) : (seedDashboardStep st).assets = st.assets := by
  unfold seedDashboardStep
  split <;> rfl

theorem seedAssetsStep_dashboard (st : St) :
    (seedAssetsStep st).dashboard = st.dashboard := by
  unfold seedAssetsStep
  split <;> rfl

theorem seedDashboardStep_of_nonempty {st : St} (hd : st.dashboard ≠ []) :
    seedDashboardStep st = st := by
  unfold seedDashboardStep
  rw [if_neg (by simp [List.length_eq_zero, hd])]

theorem seedData_dashboard_of_nonempty {st : St} (hd : st.dashboard ≠ []) :
    (seedData st).dashboard = st.dashboard := by
  unfold seedData
  rw [seedAssetsStep_dashboard, seedDashboardStep_of_nonempty hd]

theorem seedData_assets_of_nonempty {st : St} (ha : st.assets ≠ []) :
    (seedData st).assets = st.assets := by
  unfold seedData
  have hX : (seedDashboardStep st).assets = st.assets := seedDashboardStep_assets st
  have hfix : seedAssetsStep (seedDashboardStep st) = seedDashboardStep st := by
    unfold seedAssetsStep
    rw [if_neg (by simp [hX, List.length_eq_zero, ha])]
  rw [hfix, hX]

theorem seedData_eq_of_nonempty {st : St} (hd : st.dashboard ≠ []) (ha : st.assets ≠ []) :
    seedData st = st := by
  have h1 := seedData_dashboard_of_nonempty hd
  have h2 := seedData_assets_of_nonempty ha
  calc seedData st = ⟨(seedData st).dashboard, (seedData st).assets⟩ := rfl
    _ = ⟨st.dashboard, st.assets⟩ := by rw [h1, h2]
    _ = st := rfl

theorem initDB_emptySt : initDB emptySt = seededSt := rfl

/-- C9: bootstrapping any positive number of times starting from empty tables
yields exactly one dashboard row and exactly four asset rows, and on a store
whose tables are already populated the seed step touches neither table — it
seeds only when the corresponding table is empty and never overwrites. -/
theorem initDB_idempotent (n : ℕ) (st : St) (hn : 1 ≤ n)
    (hd : st.dashboard ≠ []) (ha : st.assets ≠ []) :
    (initDB^[n] emptySt).dashboard.length = 1 ∧
    (initDB^[n] emptySt).assets.length = 4 ∧
    (initDB st).dashboard = st.dashboard ∧
    (initDB st).assets = st.assets := by
  obtain ⟨k, rfl⟩ := Nat.exists_eq_add_of_le hn
  have hfix : initDB seededSt = seededSt :=
    seedData_eq_of_nonempty (by simp [seededSt]) (by simp [seededSt, seedAssets])
  have hiter : initDB^[1 + k] emptySt = seededSt := by
    rw [Nat.add_comm, Function.iterate_add_apply, Function.iterate_one, initDB_emptySt]
    exact Function.iterate_fixed hfix k
  refine ⟨by rw [hiter]; rfl, by rw [hiter]; rfl, ?_, ?_⟩
  · exact seedData_dashboard_of_nonempty hd
  · exact seedData_assets_of_nonempty ha

/-- Witness for C9: two runs from the empty store, and a second run over the
already-seeded store. -/
theorem initDB_idempotent_witness :
    1 ≤ 2 ∧ seededSt.dashboard ≠ [] ∧ seededSt.assets ≠ [] ∧
    ((initDB^[2] emptySt).dashboard.length = 1 ∧
     (initDB^[2] emptySt).assets.length = 4 ∧
     (initDB seededSt).dashboard = seededSt.dashboard ∧
     (initDB seededSt).assets = seededSt.assets) :=
  ⟨by norm_num, by simp [seededSt], by simp [seededSt, seedAssets],
   initDB_idempotent 2 seededSt (by norm_num) (by simp [seededSt])
     (by simp [seededSt, seedAssets])⟩

/-- C10: on a store with no dashboard row, a validated request that finds its
asset with sufficient inventory still fails: reading `wallet_balance` of the
missing row throws, the catch rolls the transaction back and answers 400; the
state is unchanged (the asset decrement is not visible) and no request with
these inputs can succeed. -/
theorem invest_no_dashboard_row (st : St) (assetId : Option ℕ) (tokensToBuy : Option ℚ)
    (asset : Asset)
    (hv : validInvestInput assetId tokensToBuy = true)
    (hA : findAsset st.assets (assetId.getD 0) = some asset)
    (hTok : ¬ (asset.tokens_available : ℚ) < tokensToBuy.getD 0)
    (hD : st.dashboard = []) :
    invest st assetId tokensToBuy =
      (.businessError "Cannot read properties of undefined (reading 'wallet_balance')", st) ∧
    investStatus (invest st assetId tokensToBuy).1 = 400 ∧
    ∀ d : InvestData, (invest st assetId tokensToBuy).1 ≠ .ok d := by
  have hhead : st.dashboard.head? = none := by rw [hD]; rfl
  have h := invest_error hv (investBody_noDashboard hA hTok hhead)
  refine ⟨h, by rw [h]; rfl, fun d hc => ?_⟩
  rw [h] at hc
  cases hc

/-- The seeded assets with no dashboard row at all. -/
def noDashSt : St := { dashboard := [], assets := seedAssets }

/-- Witness for C10: buying 10 tokens of asset 1 with no dashboard row. -/
theorem invest_no_dashboard_row_witness :
    validInvestInput (some 1) (some 10) = true ∧
    findAsset noDashSt.assets ((some 1).getD 0) = some skylineAsset ∧
    ¬ (skylineAsset.tokens_available : ℚ) < (some (10:ℚ)).getD 0 ∧
    noDashSt.dashboard = [] ∧
    (invest noDashSt (some 1) (some 10) =
      (.businessError "Cannot read properties of undefined (reading 'wallet_balance')",
       noDashSt) ∧
     investStatus (invest noDashSt (some 1) (some 10)).1 = 400 ∧
     ∀ d : InvestData, (invest noDashSt (some 1) (some 10)).1 ≠ .ok d) :=
  ⟨by norm_num [validInvestInput, truthyNat, truthyQ],
   by norm_num [findAsset, noDashSt, seedAssets, skylineAsset],
   by norm_num [skylineAsset],
   rfl,
   invest_no_dashboard_row noDashSt (some 1) (some 10) skylineAsset
     (by norm_num [validInvestInput, truthyNat, truthyQ])
     (by norm_num [findAsset, noDashSt, seedAssets, skylineAsset])
     (by norm_num [skylineAsset])
     rfl⟩

/-- The C7 invariant: every asset row has `tokens_available ≥ 0` and every
dashboard row has `wallet_balance ≥ 0`. -/
def StoreNonneg (st : St) : Prop :=
  (∀ a ∈ st.assets, 0 ≤ a.tokens_available) ∧ (∀ d ∈ st.dashboard, 0 ≤ d.wallet_balance)

theorem invest_snd_cases (st : St) (assetId : Option ℕ) (tokensToBuy : Option ℚ) :
    (invest st assetId tokensToBuy).2 = st ∨
    ∃ asset dash,
      findAsset st.assets (assetId.getD 0) = some asset ∧
      ¬ (asset.tokens_available : ℚ) < tokensToBuy.getD 0 ∧
      st.dashboard.head? = some dash ∧
      ¬ dash.wallet_balance < asset.price_per_token * tokensToBuy.getD 0 ∧
      (tokensToBuy.getD 0).den = 1 ∧
      (invest st assetId tokensToBuy).2 =
        successState st (assetId.getD 0) (tokensToBuy.getD 0) asset dash := by
  by_cases hv : validInvestInput assetId tokensToBuy = true
  · cases hb : investBody noFaults st (assetId.getD 0) (tokensToBuy.getD 0) with
    | error m =>
      left
      rw [invest_error hv hb]
    | ok out =>
      obtain ⟨asset, dash, hA, hTok, hD, hBal, hInt, hout⟩ := investBody_ok_inv hb
      right
      subst hout
      rw [invest_ok hv hb]
      exact ⟨asset, dash, hA, hTok, hD, hBal, hInt, rfl⟩
  · left
    have hv' : validInvestInput assetId tokensToBuy = false := Bool.not_eq_true _ ▸ hv
    unfold invest
    rw [investCore_invalid hv']

theorem invest_assets_ids (st : St) (assetId : Option ℕ) (tokensToBuy : Option ℚ) :
    ((invest st assetId tokensToBuy).2).assets.map Asset.id = st.assets.map Asset.id := by
  rcases invest_snd_cases st assetId tokensToBuy with
    h | ⟨asset, dash, hA, hTok, hD, hBal, hInt, h⟩
  · rw [h]
  · rw [h]
    simp only [successState, List.map_map]
    apply List.map_congr_left
    intro a ha
    cases hc : (a.id == assetId.getD 0) <;> simp [Function.comp, hc]

theorem invest_preserves_nonneg {st : St} (assetId : Option ℕ) (tokensToBuy : Option ℚ)
    (hids : (st.assets.map Asset.id).Nodup)
    (hInv : StoreNonneg st) :
    StoreNonneg (invest st assetId tokensToBuy).2 := by
  rcases invest_snd_cases st assetId tokensToBuy with
    h | ⟨asset, dash, hA, hTok, hD, hBal, hInt, h⟩
  · rw [h]; exact hInv
  · rw [h]
    obtain ⟨hassets, hdash⟩ := hInv
    constructor
    · intro a ha
      simp only [successState, List.mem_map] at ha
      obtain ⟨b, hb, rfl⟩ := ha
      by_cases hid : (b.id == assetId.getD 0) = true
      · have hbid : b.id = assetId.getD 0 := by simpa using hid
        have hmem : asset ∈ st.assets := findAsset_mem hA
        have haid : asset.id = assetId.getD 0 := findAsset_id hA
        have hba : b = asset :=
          List.inj_on_of_nodup_map hids hb hmem (by rw [hbid, haid])
        rw [if_pos hid]
        show 0 ≤ b.tokens_available - (tokensToBuy.getD 0).num
        rw [hba]
        refine sub_nonneg.mpr ?_
        have hle : (tokensToBuy.getD 0) ≤ (asset.tokens_available : ℚ) := not_lt.mp hTok
        rw [← Rat.coe_int_num_of_den_eq_one hInt] at hle
        exact_mod_cast hle
      · rw [if_neg hid]
        exact hassets b hb
    · intro d hd
      simp only [successState, List.mem_map] at hd
      obtain ⟨e, he, rfl⟩ := hd
      by_cases hid : (e.id == dash.id) = true
      · rw [if_pos hid]
        show 0 ≤ dash.wallet_balance - asset.price_per_token * tokensToBuy.getD 0
        exact sub_nonneg.mpr (not_lt.mp hBal)
      · rw [if_neg hid]
        exact hdash e he

/-- C7: starting from a store whose asset ids are distinct (the schema's
PRIMARY KEY) in which every asset's `tokens_available` and every dashboard
row's `wallet_balance` are nonnegative, after any finite sequence of invest
calls — each one succeeding or failing — the same nonnegativity holds. -/
theorem investSeq_preserves_nonneg (st : St) (reqs : List (Option ℕ × Option ℚ))
    (hids : (st.assets.map Asset.id).Nodup)
    (hInv : StoreNonneg st) :
    StoreNonneg (investSeq st reqs) := by
  induction reqs generalizing st with
  | nil => exact hInv
  | cons r rest ih =>
    show StoreNonneg (investSeq (invest st r.1 r.2).2 rest)
    exact ih _ (by rw [invest_assets_ids]; exact hids)
      (invest_preserves_nonneg r.1 r.2 hids hInv)

/-- The seeded store has pairwise-distinct asset ids. -/
theorem seededSt_ids_nodup : (seededSt.assets.map Asset.id).Nodup := by
  simp [seededSt, seedAssets, skylineAsset, oceanAsset, mountainAsset, downtownAsset]

/-- The seeded store satisfies the nonnegativity invariant. -/
theorem seededSt_nonneg : StoreNonneg seededSt := by
  constructor
  · intro a ha
    simp only [seededSt, seedAssets, List.mem_cons, List.not_mem_nil, or_false] at ha
    rcases ha with rfl | rfl | rfl | rfl <;>
      norm_num [skylineAsset, oceanAsset, mountainAsset, downtownAsset]
  · intro d hd
    simp only [seededSt, List.mem_cons, List.not_mem_nil, or_false] at hd
    subst hd
    norm_num [seedDashboard]

/-- Witness for C7: two requests (one succeeding, one rejected) against the
seeded store. -/
theorem investSeq_preserves_nonneg_witness :
    (seededSt.assets.map Asset.id).Nodup ∧ StoreNonneg seededSt ∧
    StoreNonneg (investSeq seededSt [(some 1, some 10), (some 99, some 5)]) :=
  ⟨seededSt_ids_nodup, seededSt_nonneg,
   investSeq_preserves_nonneg seededSt [(some 1, some 10), (some 99, some 5)]
     seededSt_ids_nodup seededSt_nonneg⟩
